import Mathlib

/-!
Verification development for the `py_universal_loader` repository.

The repository implements one bulk-loading strategy per database backend, each
with the contract `connect` / `load_dataframe(df, table_name)` / `close`.  This
file gives a shallow embedding of the nine loader implementations found under
`src/py_universal_loader/`: the control flow of each `load_dataframe` and
`close` is translated statement by statement, with collaborator calls (S3
upload/delete, SQL executes, commit, rollback, local staging-file writes and
removals) recorded in an explicit trace, collaborator failures injected through
a `Faults` record, and the committed contents of the single target table
modelled for the staged-object loaders.
-/

namespace UniversalLoader

/-- Pandas column dtypes distinguished by the loaders' type-mapping tables. -/
inductive Dtype
  | int64
  | int32
  | float64
  | float32
  | boolean
  | datetime64
  | obj
  | other
deriving Repr, DecidableEq

/-- One dataframe column: a name and a dtype. -/
structure Col where
  name : String
  dtype : Dtype
deriving Repr, DecidableEq

/-- A row of a dataframe; cell values are kept opaque. -/
abbrev Row := List String

/-- An in-memory pandas DataFrame, as far as the loaders inspect it: columns
(with dtypes) and rows.  `df.empty` in the source corresponds to
`df.rows.isEmpty` here (every claim concerns the zero-row case). -/
structure DataFrame where
  cols : List Col
  rows : List Row
deriving Repr, DecidableEq

/-- The configuration keys read by `load_dataframe` across loaders.
`config.get(key)` returning `None` for an absent key is modelled by `none`. -/
structure Config where
  if_exists : Option String
  s3_bucket : Option String
  iam_role_arn : Option String
  staging_file_path : Option String
deriving Repr, DecidableEq

/-- Python truthiness of an optional string config value as tested by
`if not value:`: `None` and the empty string are falsy. -/
def falsy : Option String → Bool
  | none => true
  | some s => s.isEmpty

/-- The SQL statements issued by the loaders, identified by shape. -/
inductive SqlStmt
  | dropTable (t : String)
  | createTable (t : String)
  | createTableIfNotExists (t : String)
  | truncateTable (t : String)
  | copyFromStage (t : String)
  | copyStdin (t : String)
  | loadDataInfile (t : String)
  | bulkInsert (t : String)
  | createOrReplaceTableAs (t : String)
  | createTableIfNotExistsAs (t : String)
  | insertIntoFromView (t : String)
deriving Repr, DecidableEq

/-- A collaborator call issued during `load_dataframe` or `close`.  Every call
the code issues is recorded in order, including a call that then raises. -/
inductive Call
  | s3Upload
  | s3Delete
  | sqlExec (s : SqlStmt)
  | commit
  | rollback
  | writeStagingFile
  | removeStagingFile
  | pandasToSql (t : String) (mode : String)
  | duckRegister
  | duckUnregister
  | bqLoadJob (t : String) (disposition : String)
  | connClose
  | clientClose
deriving Repr, DecidableEq

/-- The Python exceptions surfaced by the loaders.  `collab tag` stands for an
exception raised by a collaborator library (psycopg2, boto3, ...) and left
unwrapped; `ioError msg cause` is `raise IOError(msg) from cause`. -/
inductive Err
  | connectionError (msg : String)
  | valueError (msg : String)
  | ioError (msg : String) (cause : Err)
  | collab (tag : String)
deriving Repr, DecidableEq

deriving instance DecidableEq for Except

/-- Fault injection for collaborator calls during one `load_dataframe` call:
whether the S3 upload raises, which SQL execute (0-indexed within the call)
raises, and whether commit / S3 delete / local CSV write / DuckDB register /
BigQuery load job raise. -/
structure Faults where
  uploadFails : Bool
  execFailsAt : Option Nat
  commitFails : Bool
  deleteFails : Bool
  csvFails : Bool
  registerFails : Bool
  jobFails : Bool
deriving Repr, DecidableEq

/-- The fault-free environment: every collaborator call succeeds. -/
def noFaults : Faults := ⟨false, none, false, false, false, false, false⟩

/-- Whether the `n`-th SQL execute of one load call succeeds. -/
def execOk (fl : Faults) (n : Nat) : Bool := fl.execFailsAt != some n

/-- The handles owned by a staged-object loader instance: the database
connection and the boto3 S3 client (`true` = handle present). -/
structure StagedState where
  connection : Bool
  s3Client : Bool
deriving Repr, DecidableEq

/-- Committed contents of the single target table; `none` = table absent. -/
abbrev Table := Option (List Row)

/-- Effect of one SQL statement on the target table, with `rows` the dataset
rows referenced by an ingest statement.  `createTable` is only issued right
after `dropTable` in the sources, so it is modelled as creating the empty
table. -/
def applyStmt (rows : List Row) : SqlStmt → Table → Table
  | .dropTable _, _ => none
  | .createTable _, _ => some []
  | .createTableIfNotExists _, t => some (t.getD [])
  | .truncateTable _, t => t.map fun _ => []
  | .copyFromStage _, t => t.map fun old => old ++ rows
  | _, t => t

/-- Result of a staged-object `load_dataframe`: the Python outcome, the trace
of collaborator calls, and the committed table contents afterwards. -/
structure StagedOut where
  result : Except Err Unit
  calls : List Call
  table : Table
deriving Repr, DecidableEq

/-- Result of a direct-streaming `load_dataframe` (no staged artifact). -/
structure PlainOut where
  result : Except Err Unit
  calls : List Call
deriving Repr, DecidableEq

/-- Result of a local-file `load_dataframe`: outcome, trace, and whether the
temporary/staging file is still on disk when the call exits. -/
structure FileOut where
  result : Except Err Unit
  calls : List Call
  fileOnDisk : Bool
deriving Repr, DecidableEq

/-- Shallow embedding of `RedshiftLoader.load_dataframe`
(`redshift_loader.py`, lines 90-155): connection check, empty check,
`s3_bucket` check, Parquet upload (wrapped as IOError on failure), then one
try block containing CREATE TABLE IF NOT EXISTS, the late `iam_role_arn`
check, COPY, commit and the staged-object delete; any exception in that block
triggers rollback and `raise IOError(...) from e`.  Note the delete is inside
the try, strictly after commit. -/
def redshiftLoad (st : StagedState) (cfg : Config) (df : DataFrame)
    (tableName : String) (fl : Faults) (t0 : Table) : StagedOut :=
  if !st.connection || !st.s3Client then
    ⟨.error (.connectionError "Connection is not established. Call connect() first."), [], t0⟩
  else if df.rows.isEmpty then
    ⟨.ok (), [], t0⟩
  else if falsy cfg.s3_bucket then
    ⟨.error (.valueError "s3_bucket must be specified in the config"), [], t0⟩
  else if fl.uploadFails then
    ⟨.error (.ioError "Failed to upload staged file to S3" (.collab "s3-upload")), [.s3Upload], t0⟩
  else if !execOk fl 0 then
    ⟨.error (.ioError "Failed to load data into Redshift from S3" (.collab "sql-exec")),
      [.s3Upload, .sqlExec (.createTableIfNotExists tableName), .rollback], t0⟩
  else
    let t1 := applyStmt df.rows (.createTableIfNotExists tableName) t0
    if falsy cfg.iam_role_arn then
      ⟨.error (.ioError "Failed to load data into Redshift from S3"
          (.valueError "iam_role_arn must be specified in the config")),
        [.s3Upload, .sqlExec (.createTableIfNotExists tableName), .rollback], t0⟩
    else if !execOk fl 1 then
      ⟨.error (.ioError "Failed to load data into Redshift from S3" (.collab "sql-exec")),
        [.s3Upload, .sqlExec (.createTableIfNotExists tableName),
          .sqlExec (.copyFromStage tableName), .rollback], t0⟩
    else
      let t2 := applyStmt df.rows (.copyFromStage tableName) t1
      if fl.commitFails then
        ⟨.error (.ioError "Failed to load data into Redshift from S3" (.collab "commit")),
          [.s3Upload, .sqlExec (.createTableIfNotExists tableName),
            .sqlExec (.copyFromStage tableName), .commit, .rollback], t0⟩
      else if fl.deleteFails then
        ⟨.error (.ioError "Failed to load data into Redshift from S3" (.collab "s3-delete")),
          [.s3Upload, .sqlExec (.createTableIfNotExists tableName),
            .sqlExec (.copyFromStage tableName), .commit, .s3Delete, .rollback], t2⟩
      else
        ⟨.ok (), [.s3Upload, .sqlExec (.createTableIfNotExists tableName),
            .sqlExec (.copyFromStage tableName), .commit, .s3Delete], t2⟩

/-- Shallow embedding of `SnowflakeLoader.load_dataframe`
(`snowflake_loader.py`, lines 86-160): connection check, empty check,
`if_exists` validation, `s3_bucket` check, then a try block (upload; DROP +
CREATE for replace or CREATE IF NOT EXISTS for append; late `iam_role_arn`
check; COPY; commit) whose except clause rolls back and re-raises the original
exception, and whose finally clause always issues the staged-object delete
(its own failure is swallowed). -/
def snowflakeLoad (st : StagedState) (cfg : Config) (df : DataFrame)
    (tableName : String) (fl : Faults) (t0 : Table) : StagedOut :=
  if !st.connection || !st.s3Client then
    ⟨.error (.connectionError "Database connection is not established."), [], t0⟩
  else if df.rows.isEmpty then
    ⟨.ok (), [], t0⟩
  else
    let ie := cfg.if_exists.getD "replace"
    if !(ie == "replace" || ie == "append") then
      ⟨.error (.valueError ("Unsupported if_exists option: " ++ ie)), [], t0⟩
    else if falsy cfg.s3_bucket then
      ⟨.error (.valueError "s3_bucket must be specified in the config"), [], t0⟩
    else if fl.uploadFails then
      ⟨.error (.collab "s3-upload"), [.s3Upload, .rollback, .s3Delete], t0⟩
    else if ie == "replace" then
      if !execOk fl 0 then
        ⟨.error (.collab "sql-exec"),
          [.s3Upload, .sqlExec (.dropTable tableName), .rollback, .s3Delete], t0⟩
      else if !execOk fl 1 then
        ⟨.error (.collab "sql-exec"),
          [.s3Upload, .sqlExec (.dropTable tableName), .sqlExec (.createTable tableName),
            .rollback, .s3Delete], t0⟩
      else if falsy cfg.iam_role_arn then
        ⟨.error (.valueError "iam_role_arn must be specified in the config"),
          [.s3Upload, .sqlExec (.dropTable tableName), .sqlExec (.createTable tableName),
            .rollback, .s3Delete], t0⟩
      else if !execOk fl 2 then
        ⟨.error (.collab "sql-exec"),
          [.s3Upload, .sqlExec (.dropTable tableName), .sqlExec (.createTable tableName),
            .sqlExec (.copyFromStage tableName), .rollback, .s3Delete], t0⟩
      else if fl.commitFails then
        ⟨.error (.collab "commit"),
          [.s3Upload, .sqlExec (.dropTable tableName), .sqlExec (.createTable tableName),
            .sqlExec (.copyFromStage tableName), .commit, .rollback, .s3Delete], t0⟩
      else
        ⟨.ok (),
          [.s3Upload, .sqlExec (.dropTable tableName), .sqlExec (.createTable tableName),
            .sqlExec (.copyFromStage tableName), .commit, .s3Delete],
          applyStmt df.rows (.copyFromStage tableName)
            (applyStmt df.rows (.createTable tableName)
              (applyStmt df.rows (.dropTable tableName) t0))⟩
    else
      if !execOk fl 0 then
        ⟨.error (.collab "sql-exec"),
          [.s3Upload, .sqlExec (.createTableIfNotExists tableName), .rollback, .s3Delete], t0⟩
      else if falsy cfg.iam_role_arn then
        ⟨.error (.valueError "iam_role_arn must be specified in the config"),
          [.s3Upload, .sqlExec (.createTableIfNotExists tableName), .rollback, .s3Delete], t0⟩
      else if !execOk fl 1 then
        ⟨.error (.collab "sql-exec"),
          [.s3Upload, .sqlExec (.createTableIfNotExists tableName),
            .sqlExec (.copyFromStage tableName), .rollback, .s3Delete], t0⟩
      else if fl.commitFails then
        ⟨.error (.collab "commit"),
          [.s3Upload, .sqlExec (.createTableIfNotExists tableName),
            .sqlExec (.copyFromStage tableName), .commit, .rollback, .s3Delete], t0⟩
      else
        ⟨.ok (),
          [.s3Upload, .sqlExec (.createTableIfNotExists tableName),
            .sqlExec (.copyFromStage tableName), .commit, .s3Delete],
          applyStmt df.rows (.copyFromStage tableName)
            (applyStmt df.rows (.createTableIfNotExists tableName) t0)⟩

/-- Shallow embedding of `DatabricksLoader.load_dataframe`
(`databricks_loader.py`, lines 96-150): connection check, empty check,
`s3_bucket` and `iam_role_arn` checks (both before any call), upload (wrapped
as IOError on failure), then a try block with CREATE TABLE IF NOT EXISTS,
COPY INTO and the staged-object delete; its except clause re-raises as
IOError without rollback.  The pyodbc connection is opened with
`autocommit=True`, so each successful statement takes effect immediately and
no commit or rollback call is ever issued. -/
def databricksLoad (st : StagedState) (cfg : Config) (df : DataFrame)
    (tableName : String) (fl : Faults) (t0 : Table) : StagedOut :=
  if !st.connection || !st.s3Client then
    ⟨.error (.connectionError "Connection is not established. Call connect() first."), [], t0⟩
  else if df.rows.isEmpty then
    ⟨.ok (), [], t0⟩
  else if falsy cfg.s3_bucket then
    ⟨.error (.valueError "'s3_bucket' must be specified in the config"), [], t0⟩
  else if falsy cfg.iam_role_arn then
    ⟨.error (.valueError "'iam_role_arn' must be specified in the config"), [], t0⟩
  else if fl.uploadFails then
    ⟨.error (.ioError "Failed to upload staged file to S3" (.collab "s3-upload")), [.s3Upload], t0⟩
  else if !execOk fl 0 then
    ⟨.error (.ioError "Failed to load data into Databricks from S3" (.collab "sql-exec")),
      [.s3Upload, .sqlExec (.createTableIfNotExists tableName)], t0⟩
  else
    let t1 := applyStmt df.rows (.createTableIfNotExists tableName) t0
    if !execOk fl 1 then
      ⟨.error (.ioError "Failed to load data into Databricks from S3" (.collab "sql-exec")),
        [.s3Upload, .sqlExec (.createTableIfNotExists tableName),
          .sqlExec (.copyFromStage tableName)], t1⟩
    else
      let t2 := applyStmt df.rows (.copyFromStage tableName) t1
      if fl.deleteFails then
        ⟨.error (.ioError "Failed to load data into Databricks from S3" (.collab "s3-delete")),
          [.s3Upload, .sqlExec (.createTableIfNotExists tableName),
            .sqlExec (.copyFromStage tableName), .s3Delete], t2⟩
      else
        ⟨.ok (), [.s3Upload, .sqlExec (.createTableIfNotExists tableName),
            .sqlExec (.copyFromStage tableName), .s3Delete], t2⟩

/-- Shallow embedding of `PostgresLoader.load_dataframe`
(`postgres_loader.py`, lines 52-98): connection check, empty check,
`if_exists` validation, then DROP + CREATE (replace) or CREATE IF NOT EXISTS
(append) executed outside any try, then COPY FROM STDIN and commit inside a
try whose except clause rolls back and re-raises the original error. -/
def postgresLoad (connected : Bool) (cfg : Config) (df : DataFrame)
    (tableName : String) (fl : Faults) : PlainOut :=
  if !connected then
    ⟨.error (.connectionError "Database connection is not established."), []⟩
  else if df.rows.isEmpty then
    ⟨.ok (), []⟩
  else
    let ie := cfg.if_exists.getD "replace"
    if !(ie == "replace" || ie == "append") then
      ⟨.error (.valueError ("Unsupported if_exists option: " ++ ie)), []⟩
    else if ie == "replace" then
      if !execOk fl 0 then
        ⟨.error (.collab "sql-exec"), [.sqlExec (.dropTable tableName)]⟩
      else if !execOk fl 1 then
        ⟨.error (.collab "sql-exec"),
          [.sqlExec (.dropTable tableName), .sqlExec (.createTable tableName)]⟩
      else if !execOk fl 2 then
        ⟨.error (.collab "sql-exec"),
          [.sqlExec (.dropTable tableName), .sqlExec (.createTable tableName),
            .sqlExec (.copyStdin tableName), .rollback]⟩
      else if fl.commitFails then
        ⟨.error (.collab "commit"),
          [.sqlExec (.dropTable tableName), .sqlExec (.createTable tableName),
            .sqlExec (.copyStdin tableName), .commit, .rollback]⟩
      else
        ⟨.ok (), [.sqlExec (.dropTable tableName), .sqlExec (.createTable tableName),
            .sqlExec (.copyStdin tableName), .commit]⟩
    else
      if !execOk fl 0 then
        ⟨.error (.collab "sql-exec"), [.sqlExec (.createTableIfNotExists tableName)]⟩
      else if !execOk fl 1 then
        ⟨.error (.collab "sql-exec"),
          [.sqlExec (.createTableIfNotExists tableName),
            .sqlExec (.copyStdin tableName), .rollback]⟩
      else if fl.commitFails then
        ⟨.error (.collab "commit"),
          [.sqlExec (.createTableIfNotExists tableName),
            .sqlExec (.copyStdin tableName), .commit, .rollback]⟩
      else
        ⟨.ok (), [.sqlExec (.createTableIfNotExists tableName),
            .sqlExec (.copyStdin tableName), .commit]⟩

/-- Shallow embedding of `MySQLLoader.load_dataframe` (`mysql_loader.py`,
lines 88-136): connection check, empty check, then CREATE TABLE IF NOT EXISTS
is executed BEFORE `if_exists` is read and validated; `replace` additionally
truncates; an invalid value raises ValueError only after the create statement.
The temporary CSV file is then written (`delete=False`, so a failure during
the write leaves it on disk), and LOAD DATA LOCAL INFILE plus commit run in a
try whose except rolls back and re-raises and whose finally removes the
temporary file.  `mysqlFinish` is the tail of `MySQLLoader.load_dataframe`
shared by the replace and append paths: temp-file write, then LOAD DATA as
the `n`-th SQL execute with commit/rollback and the finally-cleanup. -/
def mysqlFinish (fl : Faults) (tableName : String) (pre : List Call) (n : Nat) : FileOut :=
  if fl.csvFails then
    ⟨.error (.collab "to-csv"), pre ++ [.writeStagingFile], true⟩
  else if !execOk fl n then
    ⟨.error (.collab "sql-exec"),
      pre ++ [.writeStagingFile, .sqlExec (.loadDataInfile tableName), .rollback,
        .removeStagingFile], false⟩
  else if fl.commitFails then
    ⟨.error (.collab "commit"),
      pre ++ [.writeStagingFile, .sqlExec (.loadDataInfile tableName), .commit,
        .rollback, .removeStagingFile], false⟩
  else
    ⟨.ok (), pre ++ [.writeStagingFile, .sqlExec (.loadDataInfile tableName), .commit,
        .removeStagingFile], false⟩

def mysqlLoad (connected : Bool) (cfg : Config) (df : DataFrame)
    (tableName : String) (fl : Faults) : FileOut :=
  if !connected then
    ⟨.error (.connectionError "Database connection is not established."), [], false⟩
  else if df.rows.isEmpty then
    ⟨.ok (), [], false⟩
  else if !execOk fl 0 then
    ⟨.error (.collab "sql-exec"), [.sqlExec (.createTableIfNotExists tableName)], false⟩
  else
    let ie := cfg.if_exists.getD "replace"
    if ie == "replace" then
      if !execOk fl 1 then
        ⟨.error (.collab "sql-exec"),
          [.sqlExec (.createTableIfNotExists tableName),
            .sqlExec (.truncateTable tableName)], false⟩
      else
        mysqlFinish fl tableName
          [.sqlExec (.createTableIfNotExists tableName),
            .sqlExec (.truncateTable tableName)] 2
    else if ie != "append" then
      ⟨.error (.valueError ("Unsupported if_exists option: " ++ ie)),
        [.sqlExec (.createTableIfNotExists tableName)], false⟩
    else
      mysqlFinish fl tableName [.sqlExec (.createTableIfNotExists tableName)] 1

/-- Shallow embedding of `MSSQLLoader.load_dataframe` (`mssql_loader.py`,
lines 79-137): connection check, empty check, `if_exists` validation,
`staging_file_path` check, then the dataset is written as a CSV to the
configured path; DROP + CREATE (replace) or conditional create (append),
BULK INSERT and commit run in a try whose except rolls back and re-raises.
No code path removes the staging file. -/
def mssqlLoad (connected : Bool) (cfg : Config) (df : DataFrame)
    (tableName : String) (fl : Faults) : FileOut :=
  if !connected then
    ⟨.error (.connectionError "Database connection is not established."), [], false⟩
  else if df.rows.isEmpty then
    ⟨.ok (), [], false⟩
  else
    let ie := cfg.if_exists.getD "replace"
    if !(ie == "replace" || ie == "append") then
      ⟨.error (.valueError ("Unsupported if_exists option: " ++ ie)), [], false⟩
    else if falsy cfg.staging_file_path then
      ⟨.error (.valueError
          "'staging_file_path' must be provided in the configuration for MSSQLLoader."),
        [], false⟩
    else if fl.csvFails then
      ⟨.error (.collab "to-csv"), [.writeStagingFile], true⟩
    else if ie == "replace" then
      if !execOk fl 0 then
        ⟨.error (.collab "sql-exec"),
          [.writeStagingFile, .sqlExec (.dropTable tableName), .rollback], true⟩
      else if !execOk fl 1 then
        ⟨.error (.collab "sql-exec"),
          [.writeStagingFile, .sqlExec (.dropTable tableName),
            .sqlExec (.createTable tableName), .rollback], true⟩
      else if !execOk fl 2 then
        ⟨.error (.collab "sql-exec"),
          [.writeStagingFile, .sqlExec (.dropTable tableName),
            .sqlExec (.createTable tableName), .sqlExec (.bulkInsert tableName),
            .rollback], true⟩
      else if fl.commitFails then
        ⟨.error (.collab "commit"),
          [.writeStagingFile, .sqlExec (.dropTable tableName),
            .sqlExec (.createTable tableName), .sqlExec (.bulkInsert tableName),
            .commit, .rollback], true⟩
      else
        ⟨.ok (), [.writeStagingFile, .sqlExec (.dropTable tableName),
            .sqlExec (.createTable tableName), .sqlExec (.bulkInsert tableName),
            .commit], true⟩
    else
      if !execOk fl 0 then
        ⟨.error (.collab "sql-exec"),
          [.writeStagingFile, .sqlExec (.createTableIfNotExists tableName), .rollback], true⟩
      else if !execOk fl 1 then
        ⟨.error (.collab "sql-exec"),
          [.writeStagingFile, .sqlExec (.createTableIfNotExists tableName),
            .sqlExec (.bulkInsert tableName), .rollback], true⟩
      else if fl.commitFails then
        ⟨.error (.collab "commit"),
          [.writeStagingFile, .sqlExec (.createTableIfNotExists tableName),
            .sqlExec (.bulkInsert tableName), .commit, .rollback], true⟩
      else
        ⟨.ok (), [.writeStagingFile, .sqlExec (.createTableIfNotExists tableName),
            .sqlExec (.bulkInsert tableName), .commit], true⟩

/-- Shallow embedding of `SQLiteLoader.load_dataframe` (`sqlite_loader.py`,
lines 46-75): connection check, empty check, `if_exists` validation, then
`pandas.DataFrame.to_sql` with the validated `if_exists` mode; a failure is
re-raised unwrapped. -/
def sqliteLoad (connected : Bool) (cfg : Config) (df : DataFrame)
    (tableName : String) (fl : Faults) : PlainOut :=
  if !connected then
    ⟨.error (.connectionError "Database connection is not established."), []⟩
  else if df.rows.isEmpty then
    ⟨.ok (), []⟩
  else
    let ie := cfg.if_exists.getD "replace"
    if !(ie == "replace" || ie == "append") then
      ⟨.error (.valueError ("Unsupported if_exists option: " ++ ie)), []⟩
    else if fl.jobFails then
      ⟨.error (.collab "to-sql"), [.pandasToSql tableName ie]⟩
    else
      ⟨.ok (), [.pandasToSql tableName ie]⟩

/-- Shallow embedding of `DuckDBLoader.load_dataframe` (`duckdb_loader.py`,
lines 46-90): connection check, empty check, `if_exists` validation, then the
dataframe is registered as a view; `replace` issues CREATE OR REPLACE TABLE AS
SELECT, `append` issues a conditional CREATE ... AS SELECT plus INSERT; a
finally clause always unregisters the view. -/
def duckdbLoad (connected : Bool) (cfg : Config) (df : DataFrame)
    (tableName : String) (fl : Faults) : PlainOut :=
  if !connected then
    ⟨.error (.connectionError "Database connection is not established."), []⟩
  else if df.rows.isEmpty then
    ⟨.ok (), []⟩
  else
    let ie := cfg.if_exists.getD "replace"
    if !(ie == "replace" || ie == "append") then
      ⟨.error (.valueError ("Unsupported if_exists option: " ++ ie)), []⟩
    else if fl.registerFails then
      ⟨.error (.collab "duck-register"), [.duckRegister, .duckUnregister]⟩
    else if ie == "replace" then
      if !execOk fl 0 then
        ⟨.error (.collab "sql-exec"),
          [.duckRegister, .sqlExec (.createOrReplaceTableAs tableName), .duckUnregister]⟩
      else
        ⟨.ok (), [.duckRegister, .sqlExec (.createOrReplaceTableAs tableName),
            .duckUnregister]⟩
    else
      if !execOk fl 0 then
        ⟨.error (.collab "sql-exec"),
          [.duckRegister, .sqlExec (.createTableIfNotExistsAs tableName), .duckUnregister]⟩
      else if !execOk fl 1 then
        ⟨.error (.collab "sql-exec"),
          [.duckRegister, .sqlExec (.createTableIfNotExistsAs tableName),
            .sqlExec (.insertIntoFromView tableName), .duckUnregister]⟩
      else
        ⟨.ok (), [.duckRegister, .sqlExec (.createTableIfNotExistsAs tableName),
            .sqlExec (.insertIntoFromView tableName), .duckUnregister]⟩

/-- Shallow embedding of `BigQueryLoader.load_dataframe`
(`bigquery_loader.py`, lines 46-83): client check, empty check, `if_exists`
validation, then one `load_table_from_dataframe` job with write disposition
WRITE_TRUNCATE for replace or WRITE_APPEND for append; a failure is re-raised
unwrapped. -/
def bigqueryLoad (clientSet : Bool) (cfg : Config) (df : DataFrame)
    (tableName : String) (fl : Faults) : PlainOut :=
  if !clientSet then
    ⟨.error (.connectionError "Database connection is not established."), []⟩
  else if df.rows.isEmpty then
    ⟨.ok (), []⟩
  else
    let ie := cfg.if_exists.getD "replace"
    if !(ie == "replace" || ie == "append") then
      ⟨.error (.valueError ("Unsupported if_exists option: " ++ ie)), []⟩
    else
      let disposition := if ie == "replace" then "WRITE_TRUNCATE" else "WRITE_APPEND"
      if fl.jobFails then
        ⟨.error (.collab "bq-load"), [.bqLoadJob tableName disposition]⟩
      else
        ⟨.ok (), [.bqLoadJob tableName disposition]⟩

/-- Shallow embedding of `RedshiftLoader.close` (`redshift_loader.py`, lines
60-67): closes and clears the database connection when present; the S3 client
handle is left untouched.  A second call finds `connection` cleared and does
nothing (no exception can be raised: the guard alone is executed). -/
def redshiftClose (st : StagedState) : StagedState × List Call :=
  if st.connection then (⟨false, st.s3Client⟩, [.connClose]) else (st, [])

/-- Shallow embedding of `SnowflakeLoader.close` (`snowflake_loader.py`,
lines 50-56): same shape as `redshiftClose`; the S3 client is not cleared. -/
def snowflakeClose (st : StagedState) : StagedState × List Call :=
  if st.connection then (⟨false, st.s3Client⟩, [.connClose]) else (st, [])

/-- Shallow embedding of `DatabricksLoader.close` (`databricks_loader.py`,
lines 66-73): same shape as `redshiftClose`; the S3 client is not cleared. -/
def databricksClose (st : StagedState) : StagedState × List Call :=
  if st.connection then (⟨false, st.s3Client⟩, [.connClose]) else (st, [])

/-- Shallow embedding of `PostgresLoader.close` (`postgres_loader.py`, lines
43-50): closes and clears the connection when present, otherwise a no-op. -/
def postgresClose (conn : Bool) : Bool × List Call :=
  if conn then (false, [.connClose]) else (conn, [])

/-- Shallow embedding of `MySQLLoader.close` (`mysql_loader.py`, lines 50-57). -/
def mysqlClose (conn : Bool) : Bool × List Call :=
  if conn then (false, [.connClose]) else (conn, [])

/-- Shallow embedding of `MSSQLLoader.close` (`mssql_loader.py`, lines 41-47). -/
def mssqlClose (conn : Bool) : Bool × List Call :=
  if conn then (false, [.connClose]) else (conn, [])

/-- Shallow embedding of `SQLiteLoader.close` (`sqlite_loader.py`, lines 37-44). -/
def sqliteClose (conn : Bool) : Bool × List Call :=
  if conn then (false, [.connClose]) else (conn, [])

/-- Shallow embedding of `DuckDBLoader.close` (`duckdb_loader.py`, lines 37-44). -/
def duckdbClose (conn : Bool) : Bool × List Call :=
  if conn then (false, [.connClose]) else (conn, [])

/-- Shallow embedding of `BigQueryLoader.close` (`bigquery_loader.py`, lines
37-44): closes and clears the owned BigQuery client when present. -/
def bigqueryClose (client : Bool) : Bool × List Call :=
  if client then (false, [.clientClose]) else (client, [])

/-- C1: the claim says that for every staged-object loader an ingest (COPY)
failure after a successful upload rolls back, propagates the error, and never
issues the object-storage delete.  The Snowflake loader violates this: its
finally clause deletes the staged object even when COPY fails.  Here the third
SQL execute (the COPY) of a connected replace-mode load raises; the run rolls
back and propagates the error, yet the trace ends with the staged-object
delete, and this contradicts the repository's own test
`test_snowflake_loader_copy_fails`, which asserts the delete is never called. -/
theorem snowflake_copy_failure_issues_staged_delete :
    snowflakeLoad ⟨true, true⟩ ⟨none, some "test-bucket", some "test-role", none⟩
        ⟨[⟨"col1", .int64⟩], [["1"]]⟩ "test_table"
        ⟨false, some 2, false, false, false, false, false⟩ (some [["old"]])
      = ⟨.error (.collab "sql-exec"),
          [.s3Upload, .sqlExec (.dropTable "test_table"),
            .sqlExec (.createTable "test_table"),
            .sqlExec (.copyFromStage "test_table"), .rollback, .s3Delete],
          some [["old"]]⟩
    ∧ (snowflakeLoad ⟨true, true⟩ ⟨none, some "test-bucket", some "test-role", none⟩
        ⟨[⟨"col1", .int64⟩], [["1"]]⟩ "test_table"
        ⟨false, some 2, false, false, false, false, false⟩
        (some [["old"]])).calls.contains .s3Delete = true := by
  exact ⟨rfl, rfl⟩

/-- C2: the claim says every loader with existence policy `replace` removes the
target table's pre-existing contents before ingesting, leaving exactly the
dataset's rows.  The Redshift loader ignores `if_exists` entirely: with
`if_exists = "replace"`, a connected fault-free load over a table already
holding one row issues only CREATE TABLE IF NOT EXISTS and COPY (no DROP, no
TRUNCATE) and commits a table holding the old row plus the new one.  This
contradicts the repository's own test `test_redshift_loader_if_exists_replace`,
which expects DROP TABLE and CREATE TABLE to be executed. -/
theorem redshift_replace_retains_existing_rows :
    redshiftLoad ⟨true, true⟩ ⟨some "replace", some "test-bucket", some "test-role", none⟩
        ⟨[⟨"col1", .int64⟩], [["new"]]⟩ "test_table" noFaults (some [["old"]])
      = ⟨.ok (),
          [.s3Upload, .sqlExec (.createTableIfNotExists "test_table"),
            .sqlExec (.copyFromStage "test_table"), .commit, .s3Delete],
          some [["old"], ["new"]]⟩ := by
  exact rfl

/-- C3: the claim says every loader rejects an unrecognized `if_exists` value
with a configuration error naming it.  The Redshift loader never reads
`if_exists`: a connected fault-free load with `if_exists = "invalid_option"`
completes successfully instead of raising.  This contradicts the repository's
own test `test_redshift_loader_if_exists_invalid`, which expects a ValueError
`Unsupported if_exists option: invalid_option` (the Databricks loader and its
test `test_load_dataframe_if_exists_invalid` disagree in the same way). -/
theorem redshift_invalid_if_exists_accepted :
    redshiftLoad ⟨true, true⟩
        ⟨some "invalid_option", some "test-bucket", some "test-role", none⟩
        ⟨[⟨"col1", .int64⟩], [["1"]]⟩ "test_table" noFaults none
      = ⟨.ok (),
          [.s3Upload, .sqlExec (.createTableIfNotExists "test_table"),
            .sqlExec (.copyFromStage "test_table"), .commit, .s3Delete],
          some [["1"]]⟩ := by
  exact rfl

/-- C4 counterexample: the claim says every staged-object loader reacts to an
upload failure by raising an IOError-class failure wrapping the cause and
never issuing an ingest, table-mutating, or delete call.  The Snowflake loader
re-raises the underlying upload error unwrapped and its finally clause still
issues the staged-object delete. -/
theorem snowflake_upload_failure_counterexample :
    snowflakeLoad ⟨true, true⟩ ⟨none, some "test-bucket", some "test-role", none⟩
        ⟨[⟨"col1", .int64⟩], [["1"]]⟩ "test_table"
        ⟨true, none, false, false, false, false, false⟩ (some [])
      = ⟨.error (.collab "s3-upload"), [.s3Upload, .rollback, .s3Delete], some []⟩ := by
  exact rfl

/-- C5 counterexample: the claim says both local-file bulk loaders remove the
temporary delimited staging file on every exit path.  The MSSQL loader never
removes it: even a fully successful connected load exits with the staging file
still on disk and no removal call in its trace. -/
theorem mssql_success_leaves_staging_file :
    mssqlLoad true ⟨none, none, none, some "/tmp/stage.csv"⟩
        ⟨[⟨"col1", .int64⟩], [["1"]]⟩ "test_table" noFaults
      = ⟨.ok (),
          [.writeStagingFile, .sqlExec (.dropTable "test_table"),
            .sqlExec (.createTable "test_table"), .sqlExec (.bulkInsert "test_table"),
            .commit], true⟩ := by
  exact rfl

/-- C6 counterexample: the claim says statically detectable configuration
errors are raised before any network or backend call.  A connected Redshift
load with `iam_role_arn` absent first uploads the staged file to S3 and
executes CREATE TABLE IF NOT EXISTS, and only then hits the missing-role
check — whose ValueError is even surfaced wrapped inside the ingest IOError
after a rollback. -/
theorem redshift_missing_iam_role_after_upload :
    redshiftLoad ⟨true, true⟩ ⟨none, some "test-bucket", none, none⟩
        ⟨[⟨"col1", .int64⟩], [["1"]]⟩ "test_table" noFaults none
      = ⟨.error (.ioError "Failed to load data into Redshift from S3"
            (.valueError "iam_role_arn must be specified in the config")),
          [.s3Upload, .sqlExec (.createTableIfNotExists "test_table"), .rollback],
          none⟩ := by
  exact rfl

/-- C9 counterexample: the claim says `close()` releases the object-storage
client of a staged-object loader and clears all owned handles.  Closing a
connected Redshift instance clears only the database connection: the S3
client handle survives and no storage-client release call is issued. -/
theorem staged_close_keeps_s3_client :
    redshiftClose ⟨true, true⟩ = (⟨false, true⟩, [.connClose]) := by
  exact rfl

/-- C7: for every loader in the connected state, `load_dataframe` on a
zero-row dataset returns successfully, issues no collaborator call of any
kind (no SQL, no file write, no object-storage call), and leaves the target
table untouched. -/
theorem empty_dataframe_noop :
    ∀ (cols : List Col) (cfg : Config) (tbl : String) (fl : Faults) (t0 : Table),
      redshiftLoad ⟨true, true⟩ cfg ⟨cols, []⟩ tbl fl t0 = ⟨.ok (), [], t0⟩
      ∧ snowflakeLoad ⟨true, true⟩ cfg ⟨cols, []⟩ tbl fl t0 = ⟨.ok (), [], t0⟩
      ∧ databricksLoad ⟨true, true⟩ cfg ⟨cols, []⟩ tbl fl t0 = ⟨.ok (), [], t0⟩
      ∧ postgresLoad true cfg ⟨cols, []⟩ tbl fl = ⟨.ok (), []⟩
      ∧ mysqlLoad true cfg ⟨cols, []⟩ tbl fl = ⟨.ok (), [], false⟩
      ∧ mssqlLoad true cfg ⟨cols, []⟩ tbl fl = ⟨.ok (), [], false⟩
      ∧ sqliteLoad true cfg ⟨cols, []⟩ tbl fl = ⟨.ok (), []⟩
      ∧ duckdbLoad true cfg ⟨cols, []⟩ tbl fl = ⟨.ok (), []⟩
      ∧ bigqueryLoad true cfg ⟨cols, []⟩ tbl fl = ⟨.ok (), []⟩ := by
  intro cols cfg tbl fl t0
  exact ⟨rfl, rfl, rfl, rfl, rfl, rfl, rfl, rfl, rfl⟩

/-- C8: for every loader, any dataset and any configuration, calling
`load_dataframe` while the connection handle is absent (never connected, or
cleared by `close()`) raises a ConnectionError whose message contains
"not established" and issues no collaborator call.  The final two conjuncts
exhibit both connection-error messages as explicit concatenations around the
substring "not established". -/
theorem load_without_connection_fails :
    ∀ (df : DataFrame) (cfg : Config) (tbl : String) (fl : Faults) (t0 : Table) (s3 : Bool),
      redshiftLoad ⟨false, s3⟩ cfg df tbl fl t0
        = ⟨.error (.connectionError "Connection is not established. Call connect() first."),
            [], t0⟩
      ∧ snowflakeLoad ⟨false, s3⟩ cfg df tbl fl t0
        = ⟨.error (.connectionError "Database connection is not established."), [], t0⟩
      ∧ databricksLoad ⟨false, s3⟩ cfg df tbl fl t0
        = ⟨.error (.connectionError "Connection is not established. Call connect() first."),
            [], t0⟩
      ∧ postgresLoad false cfg df tbl fl
        = ⟨.error (.connectionError "Database connection is not established."), []⟩
      ∧ mysqlLoad false cfg df tbl fl
        = ⟨.error (.connectionError "Database connection is not established."), [], false⟩
      ∧ mssqlLoad false cfg df tbl fl
        = ⟨.error (.connectionError "Database connection is not established."), [], false⟩
      ∧ sqliteLoad false cfg df tbl fl
        = ⟨.error (.connectionError "Database connection is not established."), []⟩
      ∧ duckdbLoad false cfg df tbl fl
        = ⟨.error (.connectionError "Database connection is not established."), []⟩
      ∧ bigqueryLoad false cfg df tbl fl
        = ⟨.error (.connectionError "Database connection is not established."), []⟩
      ∧ "Connection is not established. Call connect() first."
        = "Connection is " ++ "not established" ++ ". Call connect() first."
      ∧ "Database connection is not established."
        = "Database connection is " ++ "not established" ++ "." := by
  intro df cfg tbl fl t0 s3
  exact ⟨rfl, rfl, rfl, rfl, rfl, rfl, rfl, rfl, rfl, rfl, rfl⟩

/-- C10: in every loader the connected-precondition check precedes the
empty-dataset check: a zero-row dataset loaded on an unconnected instance
raises the ConnectionError instead of returning silently as a no-op. -/
theorem connection_check_precedes_empty_check :
    ∀ (cols : List Col) (cfg : Config) (tbl : String) (fl : Faults) (t0 : Table) (s3 : Bool),
      redshiftLoad ⟨false, s3⟩ cfg ⟨cols, []⟩ tbl fl t0
        = ⟨.error (.connectionError "Connection is not established. Call connect() first."),
            [], t0⟩
      ∧ snowflakeLoad ⟨false, s3⟩ cfg ⟨cols, []⟩ tbl fl t0
        = ⟨.error (.connectionError "Database connection is not established."), [], t0⟩
      ∧ databricksLoad ⟨false, s3⟩ cfg ⟨cols, []⟩ tbl fl t0
        = ⟨.error (.connectionError "Connection is not established. Call connect() first."),
            [], t0⟩
      ∧ postgresLoad false cfg ⟨cols, []⟩ tbl fl
        = ⟨.error (.connectionError "Database connection is not established."), []⟩
      ∧ mysqlLoad false cfg ⟨cols, []⟩ tbl fl
        = ⟨.error (.connectionError "Database connection is not established."), [], false⟩
      ∧ mssqlLoad false cfg ⟨cols, []⟩ tbl fl
        = ⟨.error (.connectionError "Database connection is not established."), [], false⟩
      ∧ sqliteLoad false cfg ⟨cols, []⟩ tbl fl
        = ⟨.error (.connectionError "Database connection is not established."), []⟩
      ∧ duckdbLoad false cfg ⟨cols, []⟩ tbl fl
        = ⟨.error (.connectionError "Database connection is not established."), []⟩
      ∧ bigqueryLoad false cfg ⟨cols, []⟩ tbl fl
        = ⟨.error (.connectionError "Database connection is not established."), []⟩ := by
  intro cols cfg tbl fl t0 s3
  exact ⟨rfl, rfl, rfl, rfl, rfl, rfl, rfl, rfl, rfl⟩

/-- Auxiliary: the shared tail of the MySQL load never leaves the temporary
file on disk when the CSV write itself succeeds (the finally clause removes
it on the success, ingest-failure and commit-failure paths alike). -/
theorem mysqlFinish_fileOnDisk (fl : Faults) (tableName : String) (pre : List Call)
    (n : Nat) (h : fl.csvFails = false) :
    (mysqlFinish fl tableName pre n).fileOnDisk = false := by
  unfold mysqlFinish
  rw [h]
  cases hn : execOk fl n <;> cases hcm : fl.commitFails <;> rfl

/-- C4 amended: on an upload failure, Redshift and Databricks raise an
IOError wrapping the cause and terminate with no SQL statement and no delete
issued; Snowflake likewise issues no ingest or table-mutating statement, but
re-raises the underlying upload error unwrapped, attempts a rollback, and its
finally clause still issues a delete of the staged key. -/
theorem staged_upload_failure_behavior :
    ∀ (cfg : Config) (df : DataFrame) (tbl : String) (fl : Faults) (t0 : Table),
      df.rows.isEmpty = false →
      fl.uploadFails = true →
      falsy cfg.s3_bucket = false →
      falsy cfg.iam_role_arn = false →
      (cfg.if_exists.getD "replace" == "replace"
        || cfg.if_exists.getD "replace" == "append") = true →
      redshiftLoad ⟨true, true⟩ cfg df tbl fl t0
        = ⟨.error (.ioError "Failed to upload staged file to S3" (.collab "s3-upload")),
            [.s3Upload], t0⟩
      ∧ databricksLoad ⟨true, true⟩ cfg df tbl fl t0
        = ⟨.error (.ioError "Failed to upload staged file to S3" (.collab "s3-upload")),
            [.s3Upload], t0⟩
      ∧ snowflakeLoad ⟨true, true⟩ cfg df tbl fl t0
        = ⟨.error (.collab "s3-upload"), [.s3Upload, .rollback, .s3Delete], t0⟩ := by
  intro cfg df tbl fl t0 hrows hup hbucket hiam hie
  refine ⟨?_, ?_, ?_⟩ <;>
    simp [redshiftLoad, databricksLoad, snowflakeLoad, hrows, hup, hbucket, hiam, hie]

/-- Witness for the amended C4 at a concrete connected configuration with a
failing upload. -/
theorem staged_upload_failure_behavior_witness :
    redshiftLoad ⟨true, true⟩ ⟨none, some "b", some "r", none⟩
        ⟨[⟨"c", .int64⟩], [["1"]]⟩ "t"
        ⟨true, none, false, false, false, false, false⟩ (some [])
      = ⟨.error (.ioError "Failed to upload staged file to S3" (.collab "s3-upload")),
          [.s3Upload], some []⟩
    ∧ databricksLoad ⟨true, true⟩ ⟨none, some "b", some "r", none⟩
        ⟨[⟨"c", .int64⟩], [["1"]]⟩ "t"
        ⟨true, none, false, false, false, false, false⟩ (some [])
      = ⟨.error (.ioError "Failed to upload staged file to S3" (.collab "s3-upload")),
          [.s3Upload], some []⟩
    ∧ snowflakeLoad ⟨true, true⟩ ⟨none, some "b", some "r", none⟩
        ⟨[⟨"c", .int64⟩], [["1"]]⟩ "t"
        ⟨true, none, false, false, false, false, false⟩ (some [])
      = ⟨.error (.collab "s3-upload"), [.s3Upload, .rollback, .s3Delete], some []⟩ :=
  staged_upload_failure_behavior ⟨none, some "b", some "r", none⟩
    ⟨[⟨"c", .int64⟩], [["1"]]⟩ "t" ⟨true, none, false, false, false, false, false⟩
    (some []) rfl rfl rfl rfl rfl

/-- C5 amended: when its CSV write succeeds, the MySQL loader removes its
temporary staging file on every exit path of `load_dataframe`; the MSSQL
loader never issues a file removal on any path, and on every path on which it
wrote the staging file the file is still on disk when the call exits. -/
theorem local_file_cleanup_behavior :
    ∀ (conn : Bool) (cfg : Config) (df : DataFrame) (tbl : String) (fl : Faults),
      fl.csvFails = false →
      (mysqlLoad conn cfg df tbl fl).fileOnDisk = false
      ∧ (mssqlLoad conn cfg df tbl fl).calls.contains .removeStagingFile = false
      ∧ ((mssqlLoad conn cfg df tbl fl).calls.contains .writeStagingFile = true →
          (mssqlLoad conn cfg df tbl fl).fileOnDisk = true) := by
  intro conn cfg df tbl fl hcsv
  obtain ⟨cols, rows⟩ := df
  refine ⟨?_, ?_, ?_⟩
  · unfold mysqlLoad
    dsimp only
    cases conn
    · rfl
    cases rows
    · rfl
    cases h0 : execOk fl 0
    · rfl
    cases hb1 : (cfg.if_exists.getD "replace" == "replace") <;>
      cases hb2 : (cfg.if_exists.getD "replace" != "append") <;>
        cases h1 : execOk fl 1 <;>
          first
            | rfl
            | exact mysqlFinish_fileOnDisk _ _ _ _ hcsv
  · unfold mssqlLoad
    dsimp only
    cases conn
    · rfl
    cases rows
    · rfl
    cases hb1 : (cfg.if_exists.getD "replace" == "replace") <;>
      cases hb2 : (cfg.if_exists.getD "replace" == "append") <;>
        cases hf : falsy cfg.staging_file_path <;>
          cases hc : fl.csvFails <;>
            cases h0 : execOk fl 0 <;>
              cases h1 : execOk fl 1 <;>
                cases h2 : execOk fl 2 <;>
                  cases hcm : fl.commitFails <;>
                    rfl
  · unfold mssqlLoad
    dsimp only
    cases conn
    · intro hw
      exact Bool.noConfusion hw
    cases rows
    · intro hw
      exact Bool.noConfusion hw
    cases hb1 : (cfg.if_exists.getD "replace" == "replace") <;>
      cases hb2 : (cfg.if_exists.getD "replace" == "append") <;>
        cases hf : falsy cfg.staging_file_path <;>
          cases hc : fl.csvFails <;>
            cases h0 : execOk fl 0 <;>
              cases h1 : execOk fl 1 <;>
                cases h2 : execOk fl 2 <;>
                  cases hcm : fl.commitFails <;>
                    intro hw <;>
                      first
                        | rfl
                        | exact Bool.noConfusion hw

/-- Witness for the amended C5 at a concrete connected fault-free load. -/
theorem local_file_cleanup_behavior_witness :
    (mysqlLoad true ⟨none, none, none, some "/tmp/s.csv"⟩
        ⟨[⟨"c", .int64⟩], [["1"]]⟩ "t" noFaults).fileOnDisk = false
    ∧ (mssqlLoad true ⟨none, none, none, some "/tmp/s.csv"⟩
        ⟨[⟨"c", .int64⟩], [["1"]]⟩ "t" noFaults).calls.contains .removeStagingFile = false
    ∧ ((mssqlLoad true ⟨none, none, none, some "/tmp/s.csv"⟩
        ⟨[⟨"c", .int64⟩], [["1"]]⟩ "t" noFaults).calls.contains .writeStagingFile = true →
        (mssqlLoad true ⟨none, none, none, some "/tmp/s.csv"⟩
          ⟨[⟨"c", .int64⟩], [["1"]]⟩ "t" noFaults).fileOnDisk = true) :=
  local_file_cleanup_behavior true ⟨none, none, none, some "/tmp/s.csv"⟩
    ⟨[⟨"c", .int64⟩], [["1"]]⟩ "t" noFaults rfl

/-- C6 amended: configuration errors checked up front (a missing bucket for
every staged loader, the missing role for Databricks, and an invalid
existence policy for the loaders that validate it — Snowflake, Postgres,
SQLite, DuckDB, BigQuery, MSSQL) are raised before any backend, file-system
or object-storage call; but MySQL validates the policy only after executing
its create-table statement, and Redshift and Snowflake check the access-role
identifier only after the upload and the table statements (Redshift even
surfaces it wrapped inside its ingest IOError, after a rollback). -/
theorem config_error_timing :
    ∀ (cfg : Config) (df : DataFrame) (tbl : String) (t0 : Table),
      df.rows.isEmpty = false →
      (falsy cfg.s3_bucket = true →
        redshiftLoad ⟨true, true⟩ cfg df tbl noFaults t0
          = ⟨.error (.valueError "s3_bucket must be specified in the config"), [], t0⟩)
      ∧ ((cfg.if_exists.getD "replace" == "replace"
            || cfg.if_exists.getD "replace" == "append") = false →
          snowflakeLoad ⟨true, true⟩ cfg df tbl noFaults t0
            = ⟨.error (.valueError
                ("Unsupported if_exists option: " ++ cfg.if_exists.getD "replace")), [], t0⟩)
      ∧ ((cfg.if_exists.getD "replace" == "replace"
            || cfg.if_exists.getD "replace" == "append") = true →
          falsy cfg.s3_bucket = true →
          snowflakeLoad ⟨true, true⟩ cfg df tbl noFaults t0
            = ⟨.error (.valueError "s3_bucket must be specified in the config"), [], t0⟩)
      ∧ (falsy cfg.s3_bucket = true →
          databricksLoad ⟨true, true⟩ cfg df tbl noFaults t0
            = ⟨.error (.valueError "'s3_bucket' must be specified in the config"), [], t0⟩)
      ∧ (falsy cfg.s3_bucket = false → falsy cfg.iam_role_arn = true →
          databricksLoad ⟨true, true⟩ cfg df tbl noFaults t0
            = ⟨.error (.valueError "'iam_role_arn' must be specified in the config"), [], t0⟩)
      ∧ ((cfg.if_exists.getD "replace" == "replace"
            || cfg.if_exists.getD "replace" == "append") = false →
          postgresLoad true cfg df tbl noFaults
            = ⟨.error (.valueError
                ("Unsupported if_exists option: " ++ cfg.if_exists.getD "replace")), []⟩
          ∧ sqliteLoad true cfg df tbl noFaults
            = ⟨.error (.valueError
                ("Unsupported if_exists option: " ++ cfg.if_exists.getD "replace")), []⟩
          ∧ duckdbLoad true cfg df tbl noFaults
            = ⟨.error (.valueError
                ("Unsupported if_exists option: " ++ cfg.if_exists.getD "replace")), []⟩
          ∧ bigqueryLoad true cfg df tbl noFaults
            = ⟨.error (.valueError
                ("Unsupported if_exists option: " ++ cfg.if_exists.getD "replace")), []⟩
          ∧ mssqlLoad true cfg df tbl noFaults
            = ⟨.error (.valueError
                ("Unsupported if_exists option: " ++ cfg.if_exists.getD "replace")), [], false⟩
          ∧ mysqlLoad true cfg df tbl noFaults
            = ⟨.error (.valueError
                ("Unsupported if_exists option: " ++ cfg.if_exists.getD "replace")),
                [.sqlExec (.createTableIfNotExists tbl)], false⟩)
      ∧ (falsy cfg.s3_bucket = false → falsy cfg.iam_role_arn = true →
          redshiftLoad ⟨true, true⟩ cfg df tbl noFaults t0
            = ⟨.error (.ioError "Failed to load data into Redshift from S3"
                  (.valueError "iam_role_arn must be specified in the config")),
                [.s3Upload, .sqlExec (.createTableIfNotExists tbl), .rollback], t0⟩)
      ∧ (cfg.if_exists.getD "replace" = "replace" →
          falsy cfg.s3_bucket = false → falsy cfg.iam_role_arn = true →
          snowflakeLoad ⟨true, true⟩ cfg df tbl noFaults t0
            = ⟨.error (.valueError "iam_role_arn must be specified in the config"),
                [.s3Upload, .sqlExec (.dropTable tbl), .sqlExec (.createTable tbl),
                  .rollback, .s3Delete], t0⟩) := by
  intro cfg df tbl t0 hrows
  refine ⟨?_, ?_, ?_, ?_, ?_, ?_, ?_, ?_⟩
  · intro hb
    unfold redshiftLoad
    dsimp only
    rw [hrows, hb]
    rfl
  · intro hie
    unfold snowflakeLoad
    dsimp only
    rw [hrows, hie]
    rfl
  · intro hie hb
    unfold snowflakeLoad
    dsimp only
    rw [hrows, hie, hb]
    rfl
  · intro hb
    unfold databricksLoad
    dsimp only
    rw [hrows, hb]
    rfl
  · intro hb hiam
    unfold databricksLoad
    dsimp only
    rw [hrows, hb, hiam]
    rfl
  · intro hie
    have hb1 : (cfg.if_exists.getD "replace" == "replace") = false := by
      cases h1 : (cfg.if_exists.getD "replace" == "replace") with
      | false => rfl
      | true => rw [h1] at hie; exact absurd hie (by simp)
    have hb2 : (cfg.if_exists.getD "replace" == "append") = false := by
      cases h2 : (cfg.if_exists.getD "replace" == "append") with
      | false => rfl
      | true => rw [h2] at hie; exact absurd hie (by simp)
    refine ⟨?_, ?_, ?_, ?_, ?_, ?_⟩
    · unfold postgresLoad
      dsimp only
      rw [hrows, hie]
      rfl
    · unfold sqliteLoad
      dsimp only
      rw [hrows, hie]
      rfl
    · unfold duckdbLoad
      dsimp only
      rw [hrows, hie]
      rfl
    · unfold bigqueryLoad
      dsimp only
      rw [hrows, hie]
      rfl
    · unfold mssqlLoad
      dsimp only
      rw [hrows, hie]
      rfl
    · unfold mysqlLoad
      dsimp only
      simp only [bne, hrows, hb1, hb2]
      rfl
  · intro hb hiam
    unfold redshiftLoad
    dsimp only
    rw [hrows, hb, hiam]
    rfl
  · intro hie hb hiam
    unfold snowflakeLoad
    dsimp only
    rw [hrows, hie, hb, hiam]
    rfl

/-- Witness for the amended C6 at three concrete configurations: one with the
bucket missing, one with an invalid `if_exists`, and one with the access role
missing. -/
theorem config_error_timing_witness :
    redshiftLoad ⟨true, true⟩ ⟨none, none, none, none⟩
        ⟨[⟨"c", .int64⟩], [["1"]]⟩ "t" noFaults none
      = ⟨.error (.valueError "s3_bucket must be specified in the config"), [], none⟩
    ∧ snowflakeLoad ⟨true, true⟩ ⟨some "bad", some "b", some "r", some "p"⟩
        ⟨[⟨"c", .int64⟩], [["1"]]⟩ "t" noFaults none
      = ⟨.error (.valueError ("Unsupported if_exists option: " ++ "bad")), [], none⟩
    ∧ mysqlLoad true ⟨some "bad", some "b", some "r", some "p"⟩
        ⟨[⟨"c", .int64⟩], [["1"]]⟩ "t" noFaults
      = ⟨.error (.valueError ("Unsupported if_exists option: " ++ "bad")),
          [.sqlExec (.createTableIfNotExists "t")], false⟩
    ∧ redshiftLoad ⟨true, true⟩ ⟨none, some "b", none, none⟩
        ⟨[⟨"c", .int64⟩], [["1"]]⟩ "t" noFaults none
      = ⟨.error (.ioError "Failed to load data into Redshift from S3"
            (.valueError "iam_role_arn must be specified in the config")),
          [.s3Upload, .sqlExec (.createTableIfNotExists "t"), .rollback], none⟩
    ∧ snowflakeLoad ⟨true, true⟩ ⟨none, some "b", none, none⟩
        ⟨[⟨"c", .int64⟩], [["1"]]⟩ "t" noFaults none
      = ⟨.error (.valueError "iam_role_arn must be specified in the config"),
          [.s3Upload, .sqlExec (.dropTable "t"), .sqlExec (.createTable "t"),
            .rollback, .s3Delete], none⟩ := by
  have hA := config_error_timing ⟨none, none, none, none⟩
    ⟨[⟨"c", .int64⟩], [["1"]]⟩ "t" none rfl
  have hB := config_error_timing ⟨some "bad", some "b", some "r", some "p"⟩
    ⟨[⟨"c", .int64⟩], [["1"]]⟩ "t" none rfl
  have hC := config_error_timing ⟨none, some "b", none, none⟩
    ⟨[⟨"c", .int64⟩], [["1"]]⟩ "t" none rfl
  exact ⟨hA.1 rfl, hB.2.1 rfl, (hB.2.2.2.2.2.1 rfl).2.2.2.2.2,
    hC.2.2.2.2.2.2.1 rfl rfl, hC.2.2.2.2.2.2.2 rfl rfl rfl⟩

/-- C9 amended: every loader's `close()` releases and clears the owned
backend connection handle when it is present and is a raise-free no-op when
already closed; for the three staged-object loaders the object-storage client
handle is neither released nor cleared by `close()`; the BigQuery loader's
single owned handle, its client, is released and cleared. -/
theorem close_behavior :
    ∀ (s3 : Bool),
      redshiftClose ⟨true, s3⟩ = (⟨false, s3⟩, [.connClose])
      ∧ redshiftClose ⟨false, s3⟩ = (⟨false, s3⟩, [])
      ∧ snowflakeClose ⟨true, s3⟩ = (⟨false, s3⟩, [.connClose])
      ∧ snowflakeClose ⟨false, s3⟩ = (⟨false, s3⟩, [])
      ∧ databricksClose ⟨true, s3⟩ = (⟨false, s3⟩, [.connClose])
      ∧ databricksClose ⟨false, s3⟩ = (⟨false, s3⟩, [])
      ∧ postgresClose true = (false, [.connClose])
      ∧ postgresClose false = (false, [])
      ∧ mysqlClose true = (false, [.connClose])
      ∧ mysqlClose false = (false, [])
      ∧ mssqlClose true = (false, [.connClose])
      ∧ mssqlClose false = (false, [])
      ∧ sqliteClose true = (false, [.connClose])
      ∧ sqliteClose false = (false, [])
      ∧ duckdbClose true = (false, [.connClose])
      ∧ duckdbClose false = (false, [])
      ∧ bigqueryClose true = (false, [.clientClose])
      ∧ bigqueryClose false = (false, []) := by
  intro s3
  exact ⟨rfl, rfl, rfl, rfl, rfl, rfl, rfl, rfl, rfl, rfl, rfl, rfl, rfl, rfl, rfl,
    rfl, rfl, rfl⟩

end UniversalLoader
